import Mathlib

/-!
Shallow embedding of the SEC financial data extractor
(`sec_data_extractor.py`, with `google_colab.py` containing the same core
functions).  Numeric values are modelled as `ℚ`; a Python `None` (or a
pandas `NaN`) is `Option.none`.  Dictionaries are association lists.
The HTTP layer (ticker map, facts fetch) is out of scope: `build_quarterly`
is modelled over the already-fetched per-entity fact sets.
-/

namespace SecExtractor

/-- One XBRL observation record.  In the source this is a JSON dict; the
fields used by the code are `fy`, `fp`, `end`, `val`.  `fy` is stored here
as its `str()` image (the code compares `str(x.get("fy")) == str(fy)`, so
only the string image matters); a missing `val` key is `none`. -/
structure Obs where
  fy : String
  fp : String
  endDate : String
  val : Option ℚ
deriving DecidableEq, Inhabited

/-- An XBRL fact: observations grouped by reporting unit
(`fact["units"]`), as an association list preserving insertion order. -/
structure Fact where
  units : List (String × List Obs)
deriving DecidableEq, Inhabited

/-- `select_units_prefer_usd`: prefer the `"USD"` unit; otherwise the first
unit in the container; `([], None)` when no units exist. -/
def select_units_prefer_usd (fact : Fact) : List Obs × Option String :=
  match fact.units.lookup "USD" with
  | some arr => (arr, some "USD")
  | none =>
    match fact.units with
    | [] => ([], none)
    | (u, arr) :: _ => (arr, some u)

/-- Code-point comparison of characters (Python's `str` ordering compares
code points). -/
def charLt (a b : Char) : Bool := decide (a.val.toNat < b.val.toNat)

/-- Lexicographic strict order on character lists. -/
def charsLt : List Char → List Char → Bool
  | _, [] => false
  | [], _ :: _ => true
  | a :: as, b :: bs => charLt a b || (a == b && charsLt as bs)

/-- Python's `<` on strings: lexicographic by code point. -/
def strLt (a b : String) : Bool := charsLt a.data b.data

/-- Strict ascending comparison on the Python sort key
`(x.get("end",""), x.get("val", 0))` used by `pick_val`. -/
def obs_key_lt (a b : Obs) : Bool :=
  strLt a.endDate b.endDate ||
    (a.endDate == b.endDate && decide (a.val.getD 0 < b.val.getD 0))

/-- Insert `x` after all already-placed elements whose key is ≤ `x`'s key
(stable insertion: equal keys keep earlier elements first). -/
def insertSorted (x : Obs) : List Obs → List Obs
  | [] => [x]
  | y :: ys => if obs_key_lt x y then x :: y :: ys else y :: insertSorted x ys

/-- Python's `sorted` on the `(end, val)` key: a stable ascending sort,
modelled as left-to-right stable insertion sort. -/
def pySort (l : List Obs) : List Obs :=
  l.foldl (fun acc x => insertSorted x acc) []

/-- The match predicate of `pick_val`:
`str(x.get("fy")) == str(fy) and x.get("fp") == fp`. -/
def obs_matches (fy : Int) (fp : String) (x : Obs) : Bool :=
  x.fy == toString fy && x.fp == fp

/-- `pick_val`: filter to exact (fy, fp) matches, sort ascending by
`(end, val)`, return the `val` of the last candidate (`None` if no
candidate, and also `None` when the winning record has no `val` key). -/
def pick_val (arr : List Obs) (fy : Int) (fp : String) : Option ℚ :=
  let candidates := arr.filter (obs_matches fy fp)
  if candidates.isEmpty then none
  else ((pySort candidates).getLast?).bind Obs.val

example :
    pick_val
      [⟨"2020", "Q1", "2020-03-31", some 5⟩,
       ⟨"2020", "Q1", "2020-04-15", some 3⟩] 2020 "Q1" = some 3 := by
  decide

example :
    pick_val [⟨"2020", "Q1", "2020-03-31", none⟩] 2020 "Q1" = none := by
  decide

/-- A company's us-gaap fact set: FactTag → Fact, as an association list. -/
def Usgaap := List (String × Fact)

instance : DecidableEq Usgaap := fun a b => List.hasDecEq a b
instance : Inhabited Usgaap := ⟨[]⟩

/-- The tag-resolution step shared by `quarter_increment`,
`quarter_instant`: `next((t for t in tag_list if t in usgaap), None)`. -/
def find_tag (usgaap : Usgaap) (tag_list : List String) : Option String :=
  tag_list.find? (fun t => (usgaap.lookup t).isSome)

/-- The observation array `quarter_increment` / `quarter_instant` work on:
the preferred unit's observations for the first available tag, `[]` when no
tag resolves. -/
def resolved_arr (usgaap : Usgaap) (tag_list : List String) : List Obs :=
  match find_tag usgaap tag_list with
  | none => []
  | some tag =>
    (select_units_prefer_usd ((usgaap.lookup tag).getD { units := [] })).1

/-- Result of `quarter_increment`: the dict `{Q1, Q2, Q3, Q4, FY}`. -/
structure QInc where
  q1 : Option ℚ
  q2 : Option ℚ
  q3 : Option ℚ
  q4 : Option ℚ
  fy : Option ℚ
deriving DecidableEq, Inhabited

/-- `quarter_increment`: decompose YTD duration observations into
quarterly increments Q1..Q4 plus the FY figure. -/
def quarter_increment (usgaap : Usgaap) (tag_list : List String) (fy : Int) :
    QInc :=
  match find_tag usgaap tag_list with
  | none => ⟨none, none, none, none, none⟩
  | some tag =>
    let arr :=
      (select_units_prefer_usd ((usgaap.lookup tag).getD { units := [] })).1
    let y1 := pick_val arr fy "Q1"
    let y2 := pick_val arr fy "Q2"
    let y3 := pick_val arr fy "Q3"
    let fy_val := pick_val arr fy "FY"
    let q1 := y1
    let q2 := match y2, y1 with
      | some b, some a => some (b - a)
      | _, _ => y2
    let q3 := match y3, y2 with
      | some c, some b => some (c - b)
      | _, _ => y3
    let q4 :=
      if fy_val.isSome ∧ q1.isSome ∧ q2.isSome ∧ q3.isSome then
        some (fy_val.getD 0 - q1.getD 0 - q2.getD 0 - q3.getD 0)
      else
        match pick_val arr fy "Q4" with
        | some v => some v
        | none => fy_val
    ⟨q1, q2, q3, q4, fy_val⟩

/-- `quarter_instant`: point-in-time value for (fy, fq), falling back to
the FY-labeled observation when fq is Q4 and no Q4 observation exists. -/
def quarter_instant (usgaap : Usgaap) (tag_list : List String) (fy : Int)
    (fq : String) : Option ℚ :=
  match find_tag usgaap tag_list with
  | none => none
  | some tag =>
    let arr :=
      (select_units_prefer_usd ((usgaap.lookup tag).getD { units := [] })).1
    match pick_val arr fy fq with
    | some v => some v
    | none => if fq == "Q4" then pick_val arr fy "FY" else none

/-- Duration tags (`DURATION_TAGS`). -/
def DURATION_TAGS : List (String × List String) :=
  [("revenue", ["RevenueFromContractWithCustomerExcludingAssessedTax",
                "SalesRevenueNet", "Revenues"]),
   ("cogs", ["CostOfGoodsAndServicesSold", "CostOfRevenue"]),
   ("ebit", ["OperatingIncomeLoss",
             "IncomeLossFromContinuingOperationsBeforeIncomeTaxes"]),
   ("net_income", ["NetIncomeLoss", "ProfitLoss"]),
   ("eps_diluted", ["EarningsPerShareDiluted",
                    "EarningsPerShareBasicAndDiluted"]),
   ("da", ["DepreciationDepletionAndAmortization",
           "DepreciationAndAmortization"]),
   ("tax_expense", ["IncomeTaxExpenseBenefit"]),
   ("cfo", ["NetCashProvidedByUsedInOperatingActivities"]),
   ("cfi", ["NetCashProvidedByUsedInInvestingActivities"]),
   ("cff", ["NetCashProvidedByUsedInFinancingActivities"]),
   ("capex", ["PaymentsToAcquirePropertyPlantAndEquipment",
              "CapitalExpendituresIncurredButNotYetPaid"]),
   ("interest_exp", ["InterestExpense", "InterestAndDebtExpense"]),
   ("dividends", ["PaymentsOfDividendsCommonStock", "PaymentsOfDividends"]),
   ("rnd", ["ResearchAndDevelopmentExpense"]),
   ("sga", ["SellingGeneralAndAdministrativeExpense"])]

/-- Instant tags (`INSTANT_TAGS`). -/
def INSTANT_TAGS : List (String × List String) :=
  [("assets", ["Assets"]),
   ("assets_current", ["AssetsCurrent"]),
   ("liabilities_current", ["LiabilitiesCurrent"]),
   ("equity",
    ["StockholdersEquityIncludingPortionAttributableToNoncontrollingInterest",
     "StockholdersEquity"]),
   ("cash", ["CashAndCashEquivalentsAtCarryingValue", "Cash"]),
   ("sti", ["MarketableSecuritiesCurrent", "AvailableForSaleSecuritiesCurrent"]),
   ("ar", ["AccountsReceivableNetCurrent", "AccountsReceivableNet"]),
   ("ap", ["AccountsPayableCurrent", "AccountsPayable"]),
   ("inventory", ["InventoryNet", "Inventory"]),
   ("debt_lt_nc", ["LongTermDebtNoncurrent"]),
   ("debt_lt_cur", ["LongTermDebtCurrent"]),
   ("debt_st", ["ShortTermBorrowings"]),
   ("ppe", ["PropertyPlantAndEquipmentNet"]),
   ("goodwill", ["Goodwill"]),
   ("intangibles", ["FiniteLivedIntangibleAssetsNet",
                    "IntangibleAssetsNetExcludingGoodwill"]),
   ("retained", ["RetainedEarningsAccumulatedDeficit"]),
   ("deferred_revenue", ["ContractWithCustomerLiabilityCurrent",
                         "DeferredRevenue"]),
   ("treasury_stock", ["TreasuryStockValue"])]

/-- Tag-list lookup `DURATION_TAGS[key]`. -/
def dtags (k : String) : List String := (DURATION_TAGS.lookup k).getD []

/-- Tag-list lookup `INSTANT_TAGS[key]`. -/
def itags (k : String) : List String := (INSTANT_TAGS.lookup k).getD []

/-- `total_debt`: sum of the three debt sub-metrics, skipping `None`
components; `None` when all three are absent
(`sum(values) if values else None`). -/
def total_debt (usgaap : Usgaap) (fy : Int) (fq : String) : Option ℚ :=
  let lt := quarter_instant usgaap (itags "debt_lt_nc") fy fq
  let cur := quarter_instant usgaap (itags "debt_lt_cur") fy fq
  let st := quarter_instant usgaap (itags "debt_st") fy fq
  let values := [lt, cur, st].filterMap id
  if values.isEmpty then none else some values.sum

/-- `safe_div` from `calculate_derived_metrics`:
`(a / b) if (a is not None and b not in (None, 0)) else 0.0`. -/
def safe_div (a b : Option ℚ) : ℚ :=
  match a, b with
  | some x, some y => if y = 0 then 0 else x / y
  | _, _ => 0

/-- One step of pandas `pct_change(fill_method=None)`: `cur / prev - 1`.
`none` stands for a non-finite float result (NaN from a missing operand,
or ±inf/NaN from a zero `prev`); the pipeline's
`.replace([inf, -inf], NA).fillna(0)` maps all of those to 0. -/
def pct_step (prev cur : Option ℚ) : Option ℚ :=
  match prev, cur with
  | some p, some c => if p = 0 then none else some (c / p - 1)
  | _, _ => none

/-- `Series.pct_change(fill_method=None)` over one group's values in row
order: the first entry is NaN (`none`), entry `i+1` compares value `i+1`
with value `i`. -/
def pct_change_list (l : List (Option ℚ)) : List (Option ℚ) :=
  match l with
  | [] => []
  | _ :: tail => none :: l.zipWith pct_step tail

/-- The (ticker, value) pairs of a dataframe column grouped under key `t`,
in row order (pandas `groupby` keeps within-group row order). -/
def gather (t : String) (col : List (String × Option ℚ)) : List (Option ℚ) :=
  (col.filter (fun p => p.1 == t)).map Prod.snd

/-- Position of row `i` inside its ticker's group: the number of earlier
rows with the same ticker. -/
def rank (t : String) (col : List (String × Option ℚ)) (i : ℕ) : ℕ :=
  ((col.take i).filter (fun p => p.1 == t)).length

/-- `df.groupby("ticker")[col].pct_change(fill_method=None)
.replace([inf, -inf], NA).fillna(0)`: per ticker group, percent change in
row order, scattered back to the original row positions, with non-finite
results and the group-leading NaN filled with 0. -/
def groupby_pct_change (col : List (String × Option ℚ)) : List ℚ :=
  (List.range col.length).map fun i =>
    let t := (col.getD i ("", none)).1
    ((pct_change_list (gather t col)).getD (rank t col i) none).getD 0

/-- Modelled from the spec claim (refinement reference, not from the
code): the growth value of row `i` is the percent change of its value
versus the value at the immediately preceding row of the same entity;
0 when the entity has no earlier row, and 0 (not infinite) when the
preceding value was 0 or either value is missing. -/
def growth_spec (col : List (String × Option ℚ)) (i : ℕ) : ℚ :=
  let t := (col.getD i ("", none)).1
  let cur := (col.getD i ("", none)).2
  match ((col.take i).filter (fun p => p.1 == t)).getLast? with
  | none => 0
  | some prev =>
    match prev.2, cur with
    | some p, some c => if p = 0 then 0 else c / p - 1
    | _, _ => 0

example :
    groupby_pct_change [("A", some 10), ("B", some 5), ("A", some 12)] =
      [0, 0, 1/5] := by
  simp +decide [groupby_pct_change, gather, rank, pct_change_list, pct_step,
    List.range_succ]
  norm_num

example :
    groupby_pct_change [("A", some 0), ("A", some 7), ("B", none),
      ("B", some 3)] = [0, 0, 0, 0] := by decide

/-- One row of the panel: the raw-metric dict built in `build_quarterly`
(lines 383-419), plus the two growth columns computed later.  The ~30
per-row derived ratio columns (each a `safe_div` of raw fields, verified
separately through `safe_div`) are not carried in the row model; no claim
refers to their stored values. -/
structure Row where
  ticker : String
  cik : String
  fy : Int
  fq : String
  revenue : Option ℚ
  cogs : Option ℚ
  ebit : Option ℚ
  net_income : Option ℚ
  eps_diluted : Option ℚ
  da : Option ℚ
  tax_expense : Option ℚ
  cfo : Option ℚ
  cfi : Option ℚ
  cff : Option ℚ
  capex : Option ℚ
  interest_exp : Option ℚ
  dividends : Option ℚ
  rnd : Option ℚ
  sga : Option ℚ
  assets : Option ℚ
  assets_current : Option ℚ
  liabilities_current : Option ℚ
  equity : Option ℚ
  cash : Option ℚ
  sti : Option ℚ
  ar : Option ℚ
  ap : Option ℚ
  inventory : Option ℚ
  ppe : Option ℚ
  goodwill : Option ℚ
  intangibles : Option ℚ
  retained : Option ℚ
  deferred_revenue : Option ℚ
  debt : Option ℚ
  treasury_stock : Option ℚ
  sales_growth : ℚ
  earning_growth : ℚ
deriving DecidableEq, Inhabited

/-- One fetched entity: ticker, zero-padded CIK, and its us-gaap fact
set.  The HTTP fetch and ticker-map lookup are out of scope; the builder
is modelled over the fetched data. -/
structure Entity where
  ticker : String
  cik : String
  usgaap : Usgaap

/-- Indexing `quarter_increment`'s result dict by the quarter label. -/
def qget (d : QInc) (fq : String) : Option ℚ :=
  if fq == "Q1" then d.q1
  else if fq == "Q2" then d.q2
  else if fq == "Q3" then d.q3
  else if fq == "Q4" then d.q4
  else none

/-- `range(start_year, end_year + 1)`. -/
def year_range (sy ey : Int) : List Int :=
  (List.range (ey + 1 - sy).toNat).map (fun k => sy + k)

/-- The row-accumulation loops of `build_quarterly` (lines 346-421): for
each entity, year and quarter, extract the raw metrics, apply the
admission filter (revenue present and non-zero; revenue unit USD when
`usd_only`), and append the row. -/
def build_rows (ents : List Entity) (sy ey : Int) (usd_only : Bool) :
    List Row :=
  ents.flatMap fun e =>
    let usgaap := e.usgaap
    let rev_unit : Option String :=
      match find_tag usgaap (dtags "revenue") with
      | some t =>
        (select_units_prefer_usd ((usgaap.lookup t).getD { units := [] })).2
      | none => none
    (year_range sy ey).flatMap fun fy =>
      let d_revenue := quarter_increment usgaap (dtags "revenue") fy
      let d_cogs := quarter_increment usgaap (dtags "cogs") fy
      let d_ebit := quarter_increment usgaap (dtags "ebit") fy
      let d_net_income := quarter_increment usgaap (dtags "net_income") fy
      let d_eps := quarter_increment usgaap (dtags "eps_diluted") fy
      let d_da := quarter_increment usgaap (dtags "da") fy
      let d_tax := quarter_increment usgaap (dtags "tax_expense") fy
      let d_cfo := quarter_increment usgaap (dtags "cfo") fy
      let d_cfi := quarter_increment usgaap (dtags "cfi") fy
      let d_cff := quarter_increment usgaap (dtags "cff") fy
      let d_capex := quarter_increment usgaap (dtags "capex") fy
      let d_intexp := quarter_increment usgaap (dtags "interest_exp") fy
      let d_div := quarter_increment usgaap (dtags "dividends") fy
      let d_rnd := quarter_increment usgaap (dtags "rnd") fy
      let d_sga := quarter_increment usgaap (dtags "sga") fy
      (["Q1", "Q2", "Q3", "Q4"]).filterMap fun fq =>
        let revenue := qget d_revenue fq
        if revenue = none ∨ revenue = some 0 then none
        else if usd_only ∧ rev_unit ≠ some "USD" then none
        else some
          { ticker := e.ticker, cik := e.cik, fy := fy, fq := fq,
            revenue := revenue,
            cogs := qget d_cogs fq, ebit := qget d_ebit fq,
            net_income := qget d_net_income fq,
            eps_diluted := qget d_eps fq, da := qget d_da fq,
            tax_expense := qget d_tax fq, cfo := qget d_cfo fq,
            cfi := qget d_cfi fq, cff := qget d_cff fq,
            capex := qget d_capex fq, interest_exp := qget d_intexp fq,
            dividends := qget d_div fq, rnd := qget d_rnd fq,
            sga := qget d_sga fq,
            assets := quarter_instant usgaap (itags "assets") fy fq,
            assets_current :=
              quarter_instant usgaap (itags "assets_current") fy fq,
            liabilities_current :=
              quarter_instant usgaap (itags "liabilities_current") fy fq,
            equity := quarter_instant usgaap (itags "equity") fy fq,
            cash := quarter_instant usgaap (itags "cash") fy fq,
            sti := quarter_instant usgaap (itags "sti") fy fq,
            ar := quarter_instant usgaap (itags "ar") fy fq,
            ap := quarter_instant usgaap (itags "ap") fy fq,
            inventory := quarter_instant usgaap (itags "inventory") fy fq,
            ppe := quarter_instant usgaap (itags "ppe") fy fq,
            goodwill := quarter_instant usgaap (itags "goodwill") fy fq,
            intangibles := quarter_instant usgaap (itags "intangibles") fy fq,
            retained := quarter_instant usgaap (itags "retained") fy fq,
            deferred_revenue :=
              quarter_instant usgaap (itags "deferred_revenue") fy fq,
            debt := total_debt usgaap fy fq,
            treasury_stock :=
              quarter_instant usgaap (itags "treasury_stock") fy fq,
            sales_growth := 0, earning_growth := 0 }

/-- Strict lexicographic order on the sort key
`["ticker", "fy", "fq"]` of `df.sort_values`. -/
def row_key_lt (a b : Row) : Bool :=
  strLt a.ticker b.ticker ||
    (a.ticker == b.ticker &&
      (decide (a.fy < b.fy) ||
        (a.fy == b.fy && strLt a.fq b.fq)))

/-- Stable insertion for the row sort. -/
def insertRow (x : Row) : List Row → List Row
  | [] => [x]
  | y :: ys => if row_key_lt x y then x :: y :: ys else y :: insertRow x ys

/-- `df.sort_values(["ticker", "fy", "fq"])`, as a stable ascending
insertion sort. -/
def sortRows (l : List Row) : List Row :=
  l.foldl (fun acc x => insertRow x acc) []

/-- The part of `calculate_derived_metrics` carried in the row model:
the `sales_growth` column (groupby-ticker percent change of revenue with
non-finite results collapsed to 0).  The per-row ratio columns it also
computes are `safe_div` combinations not stored in the row model. -/
def calculate_derived_metrics (rows : List Row) : List Row :=
  List.zipWith (fun r g => { r with sales_growth := g }) rows
    (groupby_pct_change (rows.map fun r => (r.ticker, r.revenue)))

/-- The `earning_growth` target column added in `build_quarterly`
(lines 444-449): groupby-ticker percent change of net income, with
infinities replaced by NA and NAs filled with 0. -/
def add_earning_growth (rows : List Row) : List Row :=
  List.zipWith (fun r g => { r with earning_growth := g }) rows
    (groupby_pct_change (rows.map fun r => (r.ticker, r.net_income)))

/-- The final data-quality check (line 452):
`df[(~df["revenue"].isna()) & (df["revenue"] > 0)]`. -/
def final_filter (rows : List Row) : List Row :=
  rows.filter fun r =>
    match r.revenue with
    | some v => decide (0 < v)
    | none => false

/-- `fillna(0)` on one cell. -/
def zfill (v : Option ℚ) : Option ℚ := some (v.getD 0)

/-- Zero-fill of one row's remaining missing numeric fields, revenue
excepted. -/
def fill_row (r : Row) : Row :=
  ⟨r.ticker, r.cik, r.fy, r.fq, r.revenue, zfill r.cogs, zfill r.ebit,
   zfill r.net_income, zfill r.eps_diluted, zfill r.da, zfill r.tax_expense,
   zfill r.cfo, zfill r.cfi, zfill r.cff, zfill r.capex,
   zfill r.interest_exp, zfill r.dividends, zfill r.rnd, zfill r.sga,
   zfill r.assets, zfill r.assets_current, zfill r.liabilities_current,
   zfill r.equity, zfill r.cash, zfill r.sti, zfill r.ar, zfill r.ap,
   zfill r.inventory, zfill r.ppe, zfill r.goodwill, zfill r.intangibles,
   zfill r.retained, zfill r.deferred_revenue, zfill r.debt,
   zfill r.treasury_stock, r.sales_growth, r.earning_growth⟩

/-- `df[numeric_cols_no_rev] = df[numeric_cols_no_rev].fillna(0)`. -/
def fill_zeros (rows : List Row) : List Row := rows.map fill_row

/-- `build_quarterly` after fetching: accumulate admitted rows, return
the empty panel when none, otherwise sort, compute derived metrics and
the earnings-growth target, re-check revenue positivity and zero-fill. -/
def build_quarterly (ents : List Entity) (sy ey : Int) (usd_only : Bool) :
    List Row :=
  let raw := build_rows ents sy ey usd_only
  if raw.isEmpty then []
  else
    fill_zeros (final_filter
      (add_earning_growth (calculate_derived_metrics (sortRows raw))))

/-! ### Concrete data used by witnesses -/

/-- The spec's end-to-end revenue example: Q1 = 100, Q2 YTD = 250,
Q3 YTD = 420, FY = 600. -/
def demo_usgaap : Usgaap :=
  [("Revenues", ⟨[("USD",
    [⟨"2020", "Q1", "2020-03-31", some 100⟩,
     ⟨"2020", "Q2", "2020-06-30", some 250⟩,
     ⟨"2020", "Q3", "2020-09-30", some 420⟩,
     ⟨"2020", "FY", "2020-12-31", some 600⟩])]⟩)]

/-- An entity with a single positive revenue quarter. -/
def demo_entity : Entity :=
  ⟨"TEST", "0000000001",
   [("Revenues", ⟨[("USD", [⟨"2020", "Q1", "2020-03-31", some 100⟩])]⟩)]⟩

/-- An entity whose only quarter has negative revenue (admitted by the
per-quarter filter, which only rejects missing/zero revenue). -/
def neg_entity : Entity :=
  ⟨"NEG", "0000000002",
   [("Revenues", ⟨[("USD", [⟨"2020", "Q1", "2020-03-31", some (-5)⟩])]⟩)]⟩

/-! ### Claims -/

/-- C5: safe division is total: whenever the numerator is missing or the
denominator is missing or zero the result is exactly 0, and otherwise it
is the true quotient. -/
theorem claim_C5 :
    (∀ b, safe_div none b = 0) ∧
    (∀ a, safe_div a none = 0) ∧
    (∀ a, safe_div a (some 0) = 0) ∧
    (∀ x y : ℚ, y ≠ 0 → safe_div (some x) (some y) = x / y) := by
  refine ⟨fun b => rfl, fun a => ?_, fun a => ?_, fun x y hy => ?_⟩
  · cases a <;> rfl
  · cases a <;> simp [safe_div]
  · simp [safe_div, hy]

/-- Witness for C5 at concrete inputs. -/
theorem claim_C5_witness :
    safe_div (some 6) (some 3) = 6 / 3 ∧ safe_div (some 1) none = 0 :=
  ⟨claim_C5.2.2.2 6 3 (by norm_num), claim_C5.2.1 (some 1)⟩

/-- C7: `total_debt` sums the present debt components, missing components
contributing 0, and is `none` exactly when all three components are
missing. -/
theorem claim_C7 (u : Usgaap) (fy : Int) (fq : String) :
    total_debt u fy fq =
      (if quarter_instant u (itags "debt_lt_nc") fy fq = none ∧
          quarter_instant u (itags "debt_lt_cur") fy fq = none ∧
          quarter_instant u (itags "debt_st") fy fq = none then none
       else some ((quarter_instant u (itags "debt_lt_nc") fy fq).getD 0 +
         (quarter_instant u (itags "debt_lt_cur") fy fq).getD 0 +
         (quarter_instant u (itags "debt_st") fy fq).getD 0)) := by
  unfold total_debt
  rcases quarter_instant u (itags "debt_lt_nc") fy fq with _ | a <;>
    rcases quarter_instant u (itags "debt_lt_cur") fy fq with _ | b <;>
      rcases quarter_instant u (itags "debt_st") fy fq with _ | c <;>
        simp [List.filterMap] <;> ring

/-- C10: a `None` from `pick_val` does not imply that no matching
observation existed: on a non-empty array whose (matching) winning record
lacks a `val` key, `pick_val` still returns `None`. -/
theorem claim_C10 :
    ([(⟨"2020", "Q1", "2020-03-31", none⟩ : Obs)] ≠ []) ∧
    obs_matches 2020 "Q1" ⟨"2020", "Q1", "2020-03-31", none⟩ = true ∧
    pick_val [⟨"2020", "Q1", "2020-03-31", none⟩] 2020 "Q1" = none := by
  decide

/-! ### Order facts about the pick_val sort key -/

lemma charsLt_irrefl (l : List Char) : charsLt l l = false := by
  induction l with
  | nil => rfl
  | cons a as ih => simp [charsLt, charLt, ih]

lemma charsLt_asymm :
    ∀ as bs : List Char, charsLt as bs = true → charsLt bs as = false := by
  intro as
  induction as with
  | nil => intro bs _; cases bs <;> rfl
  | cons a as ih =>
    intro bs h
    cases bs with
    | nil => simp [charsLt] at h
    | cons b bs =>
      simp only [charsLt, Bool.or_eq_true, Bool.and_eq_true] at h
      rcases h with h | ⟨hab, h⟩
      · have hlt : a.val.toNat < b.val.toNat := by
          simpa [charLt] using h
        have hne : b ≠ a := by
          intro e; subst e; exact Nat.lt_irrefl _ hlt
        simp [charsLt, charLt, Nat.not_lt.mpr (Nat.le_of_lt hlt), hne]
      · have hab' : a = b := by simpa using hab
        subst hab'
        simp [charsLt, charLt, ih bs h]

lemma strLt_irrefl (s : String) : strLt s s = false := charsLt_irrefl s.data

lemma strLt_asymm {s t : String} (h : strLt s t = true) :
    strLt t s = false := charsLt_asymm s.data t.data h

lemma strLt_ne {s t : String} (h : strLt s t = true) : s ≠ t := by
  intro e; subst e; simp [strLt_irrefl] at h

/-- C3: `pick_val` ignores non-matching observations, and among two
matching observations the later `end` date wins regardless of value,
while among equal `end` dates the larger value wins. -/
theorem claim_C3 :
    (∀ arr fy fp,
      pick_val arr fy fp = pick_val (arr.filter (obs_matches fy fp)) fy fp) ∧
    (∀ (a b : Obs) (fy : Int) (fp : String),
      obs_matches fy fp a = true → obs_matches fy fp b = true →
      ((strLt a.endDate b.endDate = true → pick_val [a, b] fy fp = b.val) ∧
       (strLt b.endDate a.endDate = true → pick_val [a, b] fy fp = a.val) ∧
       (a.endDate = b.endDate → a.val.getD 0 < b.val.getD 0 →
         pick_val [a, b] fy fp = b.val))) := by
  constructor
  · intro arr fy fp
    simp [pick_val, List.filter_filter]
  · intro a b fy fp ha hb
    have hcand : [a, b].filter (obs_matches fy fp) = [a, b] := by
      simp [ha, hb]
    refine ⟨fun hd => ?_, fun hd => ?_, fun he hv => ?_⟩
    · have hba : obs_key_lt b a = false := by
        have h1 : strLt b.endDate a.endDate = false := strLt_asymm hd
        have h2 : (b.endDate == a.endDate) = false := by
          simp [(strLt_ne hd).symm]
        simp [obs_key_lt, h1, h2]
      simp [pick_val, hcand, pySort, insertSorted, hba]
    · have hba : obs_key_lt b a = true := by
        simp [obs_key_lt, hd]
      simp [pick_val, hcand, pySort, insertSorted, hba]
    · have hba : obs_key_lt b a = false := by
        have h2 : ¬ b.val.getD 0 < a.val.getD 0 := not_lt_of_gt hv
        simp [obs_key_lt, he, strLt_irrefl, h2]
      simp [pick_val, hcand, pySort, insertSorted, hba]

/-- Witness for C3: among two matching observations, the one with the
later period end wins even though its value is smaller. -/
theorem claim_C3_witness :
    pick_val
      [⟨"2019", "Q2", "2019-06-29", some 9⟩,
       ⟨"2019", "Q2", "2019-06-30", some 4⟩] 2019 "Q2" = some 4 :=
  (claim_C3.2 ⟨"2019", "Q2", "2019-06-29", some 9⟩
    ⟨"2019", "Q2", "2019-06-30", some 4⟩ 2019 "Q2"
    (by decide) (by decide)).1 (by decide)

/-- C2: when the Q1/Q2/Q3 YTD and FY observations are all present, the
four quarterly increments produced by `quarter_increment` are all present
and sum exactly to the FY value. -/
theorem claim_C2 (u : Usgaap) (tl : List String) (fy : Int) (a b c f : ℚ)
    (h1 : pick_val (resolved_arr u tl) fy "Q1" = some a)
    (h2 : pick_val (resolved_arr u tl) fy "Q2" = some b)
    (h3 : pick_val (resolved_arr u tl) fy "Q3" = some c)
    (hf : pick_val (resolved_arr u tl) fy "FY" = some f) :
    (quarter_increment u tl fy).q1.isSome = true ∧
    (quarter_increment u tl fy).q2.isSome = true ∧
    (quarter_increment u tl fy).q3.isSome = true ∧
    (quarter_increment u tl fy).q4.isSome = true ∧
    (quarter_increment u tl fy).q1.getD 0 +
      (quarter_increment u tl fy).q2.getD 0 +
      (quarter_increment u tl fy).q3.getD 0 +
      (quarter_increment u tl fy).q4.getD 0 = f := by
  unfold resolved_arr at h1 h2 h3 hf
  unfold quarter_increment
  cases hft : find_tag u tl with
  | none =>
    rw [hft] at h1
    simp [pick_val] at h1
  | some tag =>
    rw [hft] at h1 h2 h3 hf
    simp only [h1, h2, h3, hf, Option.isSome_some, Option.getD_some]
    refine ⟨trivial, trivial, trivial, ?_, ?_⟩ <;> simp

/-- Witness for C2 on the spec's end-to-end revenue example
(100, 250, 420, FY 600). -/
theorem claim_C2_witness :
    (quarter_increment demo_usgaap (dtags "revenue") 2020).q1.isSome = true ∧
    (quarter_increment demo_usgaap (dtags "revenue") 2020).q2.isSome = true ∧
    (quarter_increment demo_usgaap (dtags "revenue") 2020).q3.isSome = true ∧
    (quarter_increment demo_usgaap (dtags "revenue") 2020).q4.isSome = true ∧
    (quarter_increment demo_usgaap (dtags "revenue") 2020).q1.getD 0 +
      (quarter_increment demo_usgaap (dtags "revenue") 2020).q2.getD 0 +
      (quarter_increment demo_usgaap (dtags "revenue") 2020).q3.getD 0 +
      (quarter_increment demo_usgaap (dtags "revenue") 2020).q4.getD 0 = 600 :=
  claim_C2 demo_usgaap (dtags "revenue") 2020 100 250 420 600
    (by decide) (by decide) (by decide) (by decide)

/-- C4: the Q4 policy of `quarter_increment`: with FY and the Q1/Q2/Q3
increments all present, Q4 = FY − Q1 − Q2 − Q3; otherwise a direct
Q4-labeled observation is used; if that is absent too but FY is present,
Q4 is the full FY value. -/
theorem claim_C4 (u : Usgaap) (tl : List String) (fy : Int) (r : QInc)
    (hr : r = quarter_increment u tl fy) :
    ((r.fy.isSome = true ∧ r.q1.isSome = true ∧ r.q2.isSome = true ∧
        r.q3.isSome = true) →
      r.q4 = some (r.fy.getD 0 - r.q1.getD 0 - r.q2.getD 0 - r.q3.getD 0)) ∧
    (¬(r.fy.isSome = true ∧ r.q1.isSome = true ∧ r.q2.isSome = true ∧
        r.q3.isSome = true) →
      ∀ v, pick_val (resolved_arr u tl) fy "Q4" = some v → r.q4 = some v) ∧
    (¬(r.fy.isSome = true ∧ r.q1.isSome = true ∧ r.q2.isSome = true ∧
        r.q3.isSome = true) →
      pick_val (resolved_arr u tl) fy "Q4" = none →
      ∀ g, r.fy = some g → r.q4 = some g) := by
  subst hr
  unfold quarter_increment resolved_arr
  cases hft : find_tag u tl with
  | none =>
    refine ⟨fun hc => ?_, fun _ v hv => ?_, fun _ _ g hg => ?_⟩
    · simp at hc
    · simp [pick_val] at hv
    · simp at hg
  | some tag =>
    simp only []
    split_ifs with hcond
    · refine ⟨fun _ => ?_, fun hnc _ _ => ?_, fun hnc _ _ _ => ?_⟩
      · simp
      · exact absurd (by simpa using hcond) hnc
      · exact absurd (by simpa using hcond) hnc
    · refine ⟨fun hc => ?_, fun _ v hv => ?_, fun _ hv g hg => ?_⟩
      · exact absurd (by simpa using hc) hcond
      · simp only [hv]
      · simp only [hv]
        simpa using hg

/-- Witness for C4 (first branch) on the spec's end-to-end example:
Q4 = FY − Q1 − Q2 − Q3. -/
theorem claim_C4_witness :
    (quarter_increment demo_usgaap (dtags "revenue") 2020).q4 =
      some ((quarter_increment demo_usgaap (dtags "revenue") 2020).fy.getD 0 -
        (quarter_increment demo_usgaap (dtags "revenue") 2020).q1.getD 0 -
        (quarter_increment demo_usgaap (dtags "revenue") 2020).q2.getD 0 -
        (quarter_increment demo_usgaap (dtags "revenue") 2020).q3.getD 0) :=
  (claim_C4 demo_usgaap (dtags "revenue") 2020 _ rfl).1
    (by refine ⟨?_, ?_, ?_, ?_⟩ <;> decide)

/-- C8: the Q2 increment is Q2 YTD − Q1 YTD when both are present and
otherwise passes through the Q2 YTD value (possibly `none`) unchanged;
the Q3 increment follows the same rule one quarter later. -/
theorem claim_C8 (u : Usgaap) (tl : List String) (fy : Int) (r : QInc)
    (hr : r = quarter_increment u tl fy) :
    (∀ b a, pick_val (resolved_arr u tl) fy "Q2" = some b →
      pick_val (resolved_arr u tl) fy "Q1" = some a → r.q2 = some (b - a)) ∧
    (¬((pick_val (resolved_arr u tl) fy "Q2").isSome = true ∧
        (pick_val (resolved_arr u tl) fy "Q1").isSome = true) →
      r.q2 = pick_val (resolved_arr u tl) fy "Q2") ∧
    (∀ c b, pick_val (resolved_arr u tl) fy "Q3" = some c →
      pick_val (resolved_arr u tl) fy "Q2" = some b → r.q3 = some (c - b)) ∧
    (¬((pick_val (resolved_arr u tl) fy "Q3").isSome = true ∧
        (pick_val (resolved_arr u tl) fy "Q2").isSome = true) →
      r.q3 = pick_val (resolved_arr u tl) fy "Q3") := by
  subst hr
  unfold quarter_increment resolved_arr
  cases hft : find_tag u tl with
  | none =>
    refine ⟨fun b a hb ha => ?_, fun _ => ?_, fun c b hc hb => ?_, fun _ => ?_⟩
    · simp [pick_val] at hb
    · simp [pick_val]
    · simp [pick_val] at hc
    · simp [pick_val]
  | some tag =>
    refine ⟨fun b a hb ha => ?_, fun hn => ?_, fun c b hc hb => ?_,
      fun hn => ?_⟩
    · simp only [hb, ha]
    · rcases hy2 : pick_val
          ((select_units_prefer_usd ((u.lookup tag).getD
            { units := [] })).1) fy "Q2" with _ | y2 <;>
        rcases hy1 : pick_val
            ((select_units_prefer_usd ((u.lookup tag).getD
              { units := [] })).1) fy "Q1" with _ | y1 <;>
          simp only [hy2, hy1] <;> simp [hy2, hy1] at hn ⊢
    · simp only [hc, hb]
    · rcases hy3 : pick_val
          ((select_units_prefer_usd ((u.lookup tag).getD
            { units := [] })).1) fy "Q3" with _ | y3 <;>
        rcases hy2 : pick_val
            ((select_units_prefer_usd ((u.lookup tag).getD
              { units := [] })).1) fy "Q2" with _ | y2 <;>
          simp only [hy3, hy2] <;> simp [hy3, hy2] at hn ⊢

/-- Witness for C8: Q2 increment on the spec's end-to-end example. -/
theorem claim_C8_witness :
    (quarter_increment demo_usgaap (dtags "revenue") 2020).q2 =
      some (250 - 100) :=
  (claim_C8 demo_usgaap (dtags "revenue") 2020 _ rfl).1 250 100
    (by decide) (by decide)

/-- C1: every row of the panel returned by `build_quarterly` has a
present, strictly positive revenue. -/
theorem claim_C1 (ents : List Entity) (sy ey : Int) (usd_only : Bool)
    (r : Row) (hr : r ∈ build_quarterly ents sy ey usd_only) :
    ∃ v, r.revenue = some v ∧ 0 < v := by
  simp only [build_quarterly] at hr
  split_ifs at hr
  · simp at hr
  · rcases List.mem_map.mp hr with ⟨s, hs, hfill⟩
    rcases List.mem_filter.mp hs with ⟨-, hpred⟩
    subst hfill
    rcases hrev : s.revenue with _ | v
    · rw [hrev] at hpred; simp at hpred
    · rw [hrev] at hpred
      exact ⟨v, by simpa [fill_row] using hrev, by simpa using hpred⟩

/-- Witness for C1: a concrete one-entity run yields a panel whose first
row carries positive revenue. -/
theorem claim_C1_witness :
    ∃ v, ((build_quarterly [demo_entity] 2020 2020 true).headD
      default).revenue = some v ∧ 0 < v :=
  claim_C1 [demo_entity] 2020 2020 true _ (by decide)

/-- C9 counterexample: the final revenue filter does remove an admitted
row.  A quarter with negative revenue passes the admission check (which
only rejects missing or zero revenue) but fails the final positivity
re-check, so the final panel is empty while one row was admitted. -/
theorem claim_C9_counterexample :
    (build_rows [neg_entity] 2020 2020 true).length = 1 ∧
    ((build_rows [neg_entity] 2020 2020 true).headD default).revenue =
      some (-5) ∧
    build_quarterly [neg_entity] 2020 2020 true = [] := by decide

/-- C9 (amended): the final filter retains exactly the rows whose revenue
is present and strictly positive; every admitted row with positive
revenue is retained, but an admitted row with negative revenue is
removed (the admission check only rejects missing/zero revenue). -/
theorem claim_C9_amended (rows : List Row) (r : Row) :
    r ∈ final_filter rows ↔
      (r ∈ rows ∧ ∃ v, r.revenue = some v ∧ 0 < v) := by
  unfold final_filter
  rw [List.mem_filter]
  constructor
  · rintro ⟨hmem, hpred⟩
    refine ⟨hmem, ?_⟩
    rcases hrev : r.revenue with _ | v
    · rw [hrev] at hpred; simp at hpred
    · rw [hrev] at hpred; exact ⟨v, rfl, by simpa using hpred⟩
  · rintro ⟨hmem, v, hv, hpos⟩
    exact ⟨hmem, by simp [hv, hpos]⟩

/-! ### C6: the groupby growth columns -/

lemma gather_get_rank (l : List (String × Option ℚ)) :
    ∀ (i : ℕ) (p : String × Option ℚ), l[i]? = some p →
      (gather p.1 l)[rank p.1 l i]? = some p.2 := by
  induction l with
  | nil => intro i p h; simp at h
  | cons q l ih =>
    intro i p h
    cases i with
    | zero =>
      rw [List.getElem?_cons_zero, Option.some_inj] at h
      subst h
      simp [gather, rank, List.filter_cons]
    | succ i =>
      rw [List.getElem?_cons_succ] at h
      by_cases hq : (q.1 == p.1) = true
      · simpa [gather, rank, List.take_succ_cons, List.filter_cons, hq]
          using ih i p h
      · simpa [gather, rank, List.take_succ_cons, List.filter_cons, hq]
          using ih i p h

lemma gather_take (t : String) (l : List (String × Option ℚ)) :
    ∀ i : ℕ, gather t (l.take i) = (gather t l).take (rank t l i) := by
  induction l with
  | nil => intro i; simp [gather, rank]
  | cons q l ih =>
    intro i
    cases i with
    | zero => simp [gather, rank]
    | succ i =>
      by_cases hq : (q.1 == t) = true
      · simpa [gather, rank, List.take_succ_cons, List.filter_cons, hq]
          using ih i
      · simpa [gather, rank, List.take_succ_cons, List.filter_cons, hq]
          using ih i

lemma pct_at_rank (l : List (String × Option ℚ)) (i : ℕ)
    (p : String × Option ℚ) (h : l[i]? = some p) :
    (pct_change_list (gather p.1 l))[rank p.1 l i]? =
      some (match ((l.take i).filter (fun c => c.1 == p.1)).getLast? with
            | none => none
            | some prev => pct_step prev.2 p.2) := by
  have hg := gather_get_rank l i p h
  have hm_lt : rank p.1 l i < (gather p.1 l).length :=
    (List.getElem?_eq_some_iff.mp hg).1
  have hA : ((l.take i).filter (fun c => c.1 == p.1)).map Prod.snd =
      (gather p.1 l).take (rank p.1 l i) := gather_take p.1 l i
  have hAlen : ((l.take i).filter (fun c => c.1 == p.1)).length =
      rank p.1 l i := by
    have hlen := congrArg List.length hA
    simpa [List.length_take, Nat.min_eq_left (le_of_lt hm_lt)] using hlen
  rcases hm : rank p.1 l i with _ | m
  · -- first row of its group: the pct entry is the leading NaN
    rw [hm] at hg hA hAlen
    have hAnil : (l.take i).filter (fun c => c.1 == p.1) = [] :=
      List.length_eq_zero.mp hAlen
    rw [hAnil]
    rcases hgc : gather p.1 l with _ | ⟨x, xs⟩
    · rw [hgc] at hg; simp at hg
    · simp [pct_change_list, hgc]
  · -- a predecessor exists inside the group
    rw [hm] at hg hm_lt hA hAlen
    rcases hgc : gather p.1 l with _ | ⟨x, xs⟩
    · rw [hgc] at hg; simp at hg
    · rw [hgc] at hg hm_lt hA
      have hm2 : m < (x :: xs).length := Nat.lt_of_succ_lt hm_lt
      have hxs : xs[m]? = some p.2 := by
        rw [← List.getElem?_cons_succ (a := x)]; exact hg
      obtain ⟨w, hw⟩ : ∃ w, (x :: xs)[m]? = some w :=
        ⟨_, List.getElem?_eq_getElem hm2⟩
      have hAlast :
          ((l.take i).filter (fun c => c.1 == p.1)).getLast? =
            ((l.take i).filter (fun c => c.1 == p.1))[m]? := by
        rw [List.getLast?_eq_getElem?, hAlen]
        simp
      obtain ⟨prev, hAm⟩ :
          ∃ prev, ((l.take i).filter (fun c => c.1 == p.1))[m]? =
            some prev :=
        ⟨_, List.getElem?_eq_getElem (by rw [hAlen]; exact Nat.lt_succ_self m)⟩
      have hsnd : prev.2 = w := by
        have hmap := congrArg (fun t => t[m]?) hA
        simp only [List.getElem?_map, List.getElem?_take,
          Nat.lt_succ_self m, if_pos] at hmap
        rw [hAm] at hmap
        rw [hw] at hmap
        simpa using hmap
      rw [hAlast, hAm]
      simp only [pct_change_list, List.getElem?_cons_succ,
        List.getElem?_zipWith, hw, hxs, hsnd]

lemma groupby_pct_change_getD (l : List (String × Option ℚ)) (i : ℕ)
    (h : i < l.length) :
    (groupby_pct_change l).getD i 0 = growth_spec l i := by
  obtain ⟨p, hp⟩ : ∃ p, l[i]? = some p := ⟨_, List.getElem?_eq_getElem h⟩
  have hbody := pct_at_rank l i p hp
  have hgetD : l.getD i ("", none) = p := by
    rw [List.getD_eq_getElem?_getD, hp]; rfl
  unfold groupby_pct_change growth_spec
  rw [List.getD_eq_getElem?_getD, List.getElem?_map, List.getElem?_range h]
  simp only [Option.map_some', Option.getD_some, hgetD]
  rw [List.getD_eq_getElem?_getD, hbody]
  simp only [Option.getD_some]
  rcases hlast : (List.filter (fun c => c.1 == p.1)
      (List.take i l)).getLast? with _ | prev
  · simp [hlast]
  · rw [hlast]
    rcases hpv : prev.2 with _ | pv <;> rcases hcv : p.2 with _ | cv <;>
      simp [pct_step, hpv, hcv] <;> split_ifs <;> simp

lemma map_zipWith_set {α β γ : Type} (s : α → β → α) (f : α → γ)
    (hpres : ∀ r x, f (s r x) = f r) :
    ∀ (rows : List α) (g : List β), g.length = rows.length →
      (List.zipWith s rows g).map f = rows.map f := by
  intro rows
  induction rows with
  | nil => intro g _; simp
  | cons r rows ih =>
    intro g h
    cases g with
    | nil => simp at h
    | cons x g =>
      simp only [List.zipWith_cons_cons, List.map_cons, hpres]
      rw [ih g (by simpa using h)]

lemma groupby_pct_change_length (col : List (String × Option ℚ)) :
    (groupby_pct_change col).length = col.length := by
  simp [groupby_pct_change]

lemma calculate_derived_metrics_length (rows : List Row) :
    (calculate_derived_metrics rows).length = rows.length := by
  simp [calculate_derived_metrics, groupby_pct_change_length]

/-- C6: in the panel with both growth columns computed, row `i`'s
`earning_growth` (resp. `sales_growth`) is exactly the collapsed percent
change of net income (resp. revenue) against the immediately preceding
row of the same ticker: 0 when the ticker has no earlier row, and 0 when
the preceding value was 0 or either value is missing. -/
theorem claim_C6 (rows : List Row) (i : ℕ) (h : i < rows.length) :
    ((add_earning_growth (calculate_derived_metrics rows)).getD i
        default).earning_growth =
      growth_spec (rows.map fun r => (r.ticker, r.net_income)) i ∧
    ((add_earning_growth (calculate_derived_metrics rows)).getD i
        default).sales_growth =
      growth_spec (rows.map fun r => (r.ticker, r.revenue)) i := by
  have hmid_len : (calculate_derived_metrics rows).length = rows.length :=
    calculate_derived_metrics_length rows
  have hcol_ni :
      (calculate_derived_metrics rows).map
          (fun r => (r.ticker, r.net_income)) =
        rows.map (fun r => (r.ticker, r.net_income)) := by
    unfold calculate_derived_metrics
    exact map_zipWith_set (fun r g => { r with sales_growth := g })
      (fun r => (r.ticker, r.net_income)) (fun r x => rfl) rows
      (groupby_pct_change (rows.map fun r => (r.ticker, r.revenue)))
      (by simp [groupby_pct_change_length])
  have hi_mid : i < (calculate_derived_metrics rows).length := by
    rw [hmid_len]; exact h
  have hi_eg : i < (groupby_pct_change ((calculate_derived_metrics
      rows).map fun r => (r.ticker, r.net_income))).length := by
    rw [groupby_pct_change_length, List.length_map, hmid_len]; exact h
  have hsg_len : i < (groupby_pct_change (rows.map
      fun r => (r.ticker, r.revenue))).length := by
    rw [groupby_pct_change_length, List.length_map]; exact h
  obtain ⟨s, hs⟩ : ∃ s, (calculate_derived_metrics rows)[i]? = some s :=
    ⟨_, List.getElem?_eq_getElem hi_mid⟩
  obtain ⟨e, he⟩ : ∃ e, (groupby_pct_change ((calculate_derived_metrics
      rows).map fun r => (r.ticker, r.net_income)))[i]? = some e :=
    ⟨_, List.getElem?_eq_getElem hi_eg⟩
  obtain ⟨g, hg⟩ : ∃ g, (groupby_pct_change (rows.map
      fun r => (r.ticker, r.revenue)))[i]? = some g :=
    ⟨_, List.getElem?_eq_getElem hsg_len⟩
  obtain ⟨r0, hr0⟩ : ∃ r0, rows[i]? = some r0 :=
    ⟨_, List.getElem?_eq_getElem h⟩
  have hout : (add_earning_growth (calculate_derived_metrics rows))[i]? =
      some { s with earning_growth := e } := by
    unfold add_earning_growth
    rw [List.getElem?_zipWith, hs, he]
  have hgetDout :
      (add_earning_growth (calculate_derived_metrics rows)).getD i default =
        { s with earning_growth := e } := by
    rw [List.getD_eq_getElem?_getD, hout]; rfl
  have hmid_i : (calculate_derived_metrics rows)[i]? =
      some { r0 with sales_growth := g } := by
    unfold calculate_derived_metrics
    rw [List.getElem?_zipWith, hr0, hg]
  have hs_eq : s = { r0 with sales_growth := g } := by
    rw [hs] at hmid_i
    exact Option.some_inj.mp hmid_i
  constructor
  · rw [hgetDout]
    show e = growth_spec (rows.map fun r => (r.ticker, r.net_income)) i
    have hgd : (groupby_pct_change ((calculate_derived_metrics rows).map
        fun r => (r.ticker, r.net_income))).getD i 0 = e := by
      rw [List.getD_eq_getElem?_getD, he]; rfl
    rw [← hgd, hcol_ni]
    exact groupby_pct_change_getD _ i (by rw [List.length_map]; exact h)
  · rw [hgetDout]
    show s.sales_growth =
      growth_spec (rows.map fun r => (r.ticker, r.revenue)) i
    rw [hs_eq]
    show g = growth_spec (rows.map fun r => (r.ticker, r.revenue)) i
    have hgd : (groupby_pct_change (rows.map
        fun r => (r.ticker, r.revenue))).getD i 0 = g := by
      rw [List.getD_eq_getElem?_getD, hg]; rfl
    rw [← hgd]
    exact groupby_pct_change_getD _ i (by rw [List.length_map]; exact h)

/-- Witness for C6 at a concrete two-row panel. -/
theorem claim_C6_witness :
    ((add_earning_growth (calculate_derived_metrics
        ([default, default] : List Row))).getD 1 default).earning_growth =
      growth_spec (([default, default] : List Row).map
        fun r => (r.ticker, r.net_income)) 1 ∧
    ((add_earning_growth (calculate_derived_metrics
        ([default, default] : List Row))).getD 1 default).sales_growth =
      growth_spec (([default, default] : List Row).map
        fun r => (r.ticker, r.revenue)) 1 :=
  claim_C6 [default, default] 1 (by decide)

end SecExtractor
